import Mathlib

/-!
Verification of the chat-client controller of `language-servers`
(`src/chat-client/src/client/mynahUi.ts`) and the Q chat trigger context
(`src/unnamed/part_000`, class `QChatTriggerContext`).

The TypeScript source is shallowly embedded: the MynahUI toolkit is an
external collaborator (the spec treats it as an opaque per-tab state store),
so its store operations are modelled from the spec's contract, while every
function of the repository itself (`handleChatPrompt`, `createTabId`,
`getOrCreateTabId`, `addChatResponse`, `showError`, `toContextCommands`,
`QChatTriggerContext.getChatParamsFromTrigger`,
`QChatTriggerContext.#guessIntentFromPrompt`) is translated line by line
from the source.  Outbound messager calls are collected into a list of
`OutboundMessage` values returned next to the updated UI state.
-/

namespace LangServers

/-- Chat item kinds used by the client (`ChatItemType` of the UI toolkit). -/
inductive ChatItemType where
  | prompt
  | answerStream
  | answer
  | systemPrompt
deriving DecidableEq, Repr

/-- Notification severities (`NotificationType` of the UI toolkit). -/
inductive NotificationType where
  | info
  | warning
  | error
deriving DecidableEq, Repr

/-- A per-file line range of a result's context list (`range.first`,
`range.second` in `addChatResponse`). -/
structure LineRange where
  first : Int
  second : Int
deriving DecidableEq, Repr

/-- Per-file details of a result's context list
(`chatResult.contextList.details[filePath]`). -/
structure ContextFileDetails where
  lineRanges : Option (List LineRange)
deriving DecidableEq, Repr

/-- `chatResult.contextList`: optional file paths plus per-file details,
the latter modelled as an association list keyed by file path. -/
structure ContextList where
  filePaths : Option (List String)
  details : Option (List (String × ContextFileDetails))
deriving DecidableEq, Repr

/-- One follow-up option of a chat result (`followUp.options[i]`). -/
structure FollowUpOption where
  pillText : String
  prompt : Option String
  type : Option String
deriving DecidableEq, Repr

/-- The follow-up block of a chat result (`chatResult.followUp`). -/
structure FollowUpBlock where
  text : Option String
  options : Option (List FollowUpOption)
deriving DecidableEq, Repr

/-- The `ChatResult` payload delivered to `addChatResponse`.  Each field is
optional, mirroring the optional keys of the TypeScript type; an absent key
is `none`. -/
structure ChatResult where
  type : Option String
  body : Option String
  messageId : Option String
  followUp : Option FollowUpBlock
  relatedContent : Option String
  canBeVoted : Option Bool
  contextList : Option ContextList
deriving DecidableEq, Repr

/-- `Object.keys(chatResult).length === 0`: the result object carries no
keys at all. -/
def ChatResult.isEmptyObject (r : ChatResult) : Bool :=
  r.type.isNone && r.body.isNone && r.messageId.isNone && r.followUp.isNone &&
    r.relatedContent.isNone && r.canBeVoted.isNone && r.contextList.isNone

/-- The label of a single line range, from `addChatResponse`:
`range.first === -1 || range.second === -1 ? '' : line ${range.first} - ${range.second}`. -/
def formatLineRange (range : LineRange) : String :=
  if range.first = -1 ∨ range.second = -1 then ""
  else "line " ++ toString range.first ++ " - " ++ toString range.second

/-- The label of a file's line ranges, from `addChatResponse`:
`fileDetails.lineRanges?.map(...).join(', ') || ''`. -/
def formatLineRangesLabel (lineRanges : Option (List LineRange)) : String :=
  match lineRanges with
  | none => ""
  | some rs =>
    let joined := String.intercalate ", " (rs.map formatLineRange)
    if joined = "" then "" else joined

/-- A rendered file detail entry of the file-tree header built by
`addChatResponse`. -/
structure RenderedFileDetails where
  label : String
  description : String
  clickable : Bool
deriving DecidableEq, Repr

/-- The `fileList` header built by `addChatResponse` from a result's
context list. -/
structure FileListHeader where
  fileTreeTitle : String
  filePaths : Option (List String)
  rootFolderTitle : String
  flatList : Bool
  collapsed : Bool
  hideFileCount : Bool
  details : List (String × RenderedFileDetails)
deriving DecidableEq, Repr

/-- The header attached to a chat item (`header = { fileList: ... }`). -/
structure ItemHeader where
  fileList : FileListHeader
deriving DecidableEq, Repr

/-- The header computed at the top of `addChatResponse`:
`undefined` unless the result has a `contextList`. -/
def buildHeader (chatResult : ChatResult) : Option ItemHeader :=
  chatResult.contextList.map fun cl =>
    { fileList :=
        { fileTreeTitle := ""
          filePaths := cl.filePaths
          rootFolderTitle := "Context"
          flatList := true
          collapsed := true
          hideFileCount := true
          details :=
            (cl.details.getD []).map fun fd =>
              (fd.1,
                { label := formatLineRangesLabel fd.2.lineRanges
                  description := fd.1
                  clickable := true }) } }

/-- A chat item held in a tab's item sequence.  Carries the content fields
that `addChatResponse` and `handleChatPrompt` read or write. -/
structure ChatItem where
  type : ChatItemType
  body : Option String
  header : Option ItemHeader
  messageId : Option String
  followUp : Option FollowUpBlock
  relatedContent : Option String
  canBeVoted : Option Bool
deriving DecidableEq, Repr

/-- A content update handed to the toolkit's `updateLastChatAnswer`;
`none` fields are keys the caller did not set. -/
structure ChatItemUpdate where
  body : Option String
  header : Option ItemHeader
  messageId : Option String
  followUp : Option FollowUpBlock
  relatedContent : Option String
  canBeVoted : Option Bool
deriving DecidableEq, Repr

/-- The per-tab store of the UI toolkit: ordered chat items plus the
loading and input-disabled flags (`loadingChat`,
`promptInputDisabledState`). -/
structure TabState where
  chatItems : List ChatItem
  loadingChat : Bool
  promptInputDisabledState : Bool
deriving DecidableEq, Repr

/-- A partial store update handed to the toolkit's `updateStore`;
`none` fields are keys the caller did not set. -/
structure StoreUpdate where
  chatItems : Option (List ChatItem)
  loadingChat : Option Bool
  promptInputDisabledState : Option Bool
deriving DecidableEq, Repr

/-- A toast shown through the toolkit's `notify`. -/
structure NotificationMsg where
  ntype : NotificationType
  title : Option String
  content : String
deriving DecidableEq, Repr

/-- The observable state of the UI toolkit plus the effect log of
`endMessageStream` calls (tab id, message id). -/
structure MynahUIState where
  tabs : List (String × TabState)
  selectedTabId : Option String
  nextTabId : Nat
  notifications : List NotificationMsg
  endMessageStreamCalls : List (String × String)
deriving DecidableEq, Repr

/-- `config.maxTabs` of `mynahUiProps`. -/
def maxTabs : Nat := 10

/-- `uiComponentsTexts.noMoreTabsTooltip`. -/
def noMoreTabsTooltip : String := "You can only open ten conversation tabs at a time."

/-- `DEFAULT_HELP_PROMPT` of `mynahUi.ts`. -/
def DEFAULT_HELP_PROMPT : String := "What can Amazon Q help me with?"

/-- Look up a tab's store by id (first match, as in the toolkit's
tab map). -/
def findTab : List (String × TabState) → String → Option TabState
  | [], _ => none
  | p :: ps, q => if p.1 = q then some p.2 else findTab ps q

/-- Update the store of the tab with the given id, leaving every other
tab untouched (no-op when the id is absent). -/
def updTab : List (String × TabState) → String → (TabState → TabState) → List (String × TabState)
  | [], _, _ => []
  | p :: ps, tid, f => (if p.1 = tid then (p.1, f p.2) else p) :: updTab ps tid f

/-- Modelled from the spec: applying a partial store update to a tab's
store — fields carried by the update replace the tab's, absent fields
keep the tab's. -/
def applyStoreUpdate (u : StoreUpdate) (t : TabState) : TabState :=
  { chatItems := u.chatItems.getD t.chatItems
    loadingChat := u.loadingChat.getD t.loadingChat
    promptInputDisabledState := u.promptInputDisabledState.getD t.promptInputDisabledState }

/-- Modelled from the spec: `mynahUi.updateStore(tabId, u)` for an
existing tab id — merge the partial update into that tab's store. -/
def mynahUpdateStoreExisting (st : MynahUIState) (tabId : String) (u : StoreUpdate) : MynahUIState :=
  { st with tabs := updTab st.tabs tabId (applyStoreUpdate u) }

/-- Modelled from the spec: `mynahUi.updateStore('', u)` — create a new
tab seeded with `u` and return its freshly generated id, or return no id
when the live-tab cap (`maxTabs`) is already reached.  The new tab
becomes the selected tab. -/
def mynahUpdateStoreNewTab (st : MynahUIState) (u : StoreUpdate) : MynahUIState × Option String :=
  if st.tabs.length < maxTabs then
    let tabId := "tab-" ++ toString st.nextTabId
    ({ st with
        tabs := st.tabs ++ [(tabId, applyStoreUpdate u
          { chatItems := [], loadingChat := false, promptInputDisabledState := false })]
        selectedTabId := some tabId
        nextTabId := st.nextTabId + 1 }, some tabId)
  else (st, none)

/-- Modelled from the spec: `mynahUi.addChatItem(tabId, item)` — append
the item to that tab's sequence (no-op when the tab is absent). -/
def mynahAddChatItem (st : MynahUIState) (tabId : String) (item : ChatItem) : MynahUIState :=
  { st with tabs := updTab st.tabs tabId (fun t => { t with chatItems := t.chatItems ++ [item] }) }

/-- Merge a content update into one chat item: fields carried by the
update replace the item's, absent fields keep the item's. -/
def ChatItem.applyUpdate (item : ChatItem) (u : ChatItemUpdate) : ChatItem :=
  { type := item.type
    body := u.body.orElse fun _ => item.body
    header := u.header.orElse fun _ => item.header
    messageId := u.messageId.orElse fun _ => item.messageId
    followUp := u.followUp.orElse fun _ => item.followUp
    relatedContent := u.relatedContent.orElse fun _ => item.relatedContent
    canBeVoted := u.canBeVoted.orElse fun _ => item.canBeVoted }

/-- Rewrite the content of the last item of a sequence in place
(the toolkit's positional "last item" addressing for streamed answers). -/
def updateLast : List ChatItem → ChatItemUpdate → List ChatItem
  | [], _ => []
  | [x], u => [x.applyUpdate u]
  | x :: y :: xs, u => x :: updateLast (y :: xs) u

/-- Modelled from the spec: `mynahUi.updateLastChatAnswer(tabId, u)` —
rewrite the content fields of that tab's last chat item in place. -/
def mynahUpdateLastChatAnswer (st : MynahUIState) (tabId : String) (u : ChatItemUpdate) : MynahUIState :=
  { st with tabs := updTab st.tabs tabId (fun t => { t with chatItems := updateLast t.chatItems u }) }

/-- Modelled from the spec: `mynahUi.endMessageStream(tabId, messageId)`
— record the explicit end-of-stream signal in the effect log. -/
def mynahEndMessageStream (st : MynahUIState) (tabId : String) (messageId : String) : MynahUIState :=
  { st with endMessageStreamCalls := st.endMessageStreamCalls ++ [(tabId, messageId)] }

/-- Modelled from the spec: `mynahUi.notify` — surface a non-blocking
notification. -/
def mynahNotify (st : MynahUIState) (msg : NotificationMsg) : MynahUIState :=
  { st with notifications := st.notifications ++ [msg] }

/-- A prompt submitted from the UI (`ChatPrompt`). -/
structure ChatPrompt where
  prompt : Option String
  escapedPrompt : Option String
  command : Option String
deriving DecidableEq, Repr

/-- Parameters of `showError` (`ErrorParams`). -/
structure ErrorParams where
  title : String
  message : String
  tabId : String
deriving DecidableEq, Repr

/-- A message emitted to the backend channel through the messager. -/
inductive OutboundMessage where
  | quickActionCommand (quickAction : String) (prompt : Option String) (tabId : String)
  | chatPrompt (prompt : ChatPrompt) (tabId : String) (triggerType : Option String)
  | error (params : ErrorParams)
deriving DecidableEq, Repr

/-- Shared tail of `handleChatPrompt`: append the user prompt item, set
the loading state, and append the initial empty streaming answer. -/
def appendPromptAndStream (st : MynahUIState) (tabId : String) (userPrompt : Option String) : MynahUIState :=
  let st1 := mynahAddChatItem st tabId
    { type := ChatItemType.prompt, body := userPrompt, header := none, messageId := none,
      followUp := none, relatedContent := none, canBeVoted := none }
  let st2 := mynahUpdateStoreExisting st1 tabId
    { chatItems := none, loadingChat := some true, promptInputDisabledState := some true }
  mynahAddChatItem st2 tabId
    { type := ChatItemType.answerStream, body := none, header := none, messageId := none,
      followUp := none, relatedContent := none, canBeVoted := none }

/-- `handleChatPrompt` of `mynahUi.ts`, returning the updated UI state
and the outbound messages emitted to the messager, in order. -/
def handleChatPrompt (st : MynahUIState) (tabId : String) (prompt : ChatPrompt)
    (triggerType : Option String) : MynahUIState × List OutboundMessage :=
  match prompt.command with
  | some command =>
    let st1 :=
      if command = "/clear" then
        mynahUpdateStoreExisting st tabId
          { chatItems := some [], loadingChat := none, promptInputDisabledState := none }
      else st
    let userPrompt :=
      if command = "/clear" then prompt.escapedPrompt
      else if command = "/help" then some DEFAULT_HELP_PROMPT
      else prompt.escapedPrompt
    let msgs := [OutboundMessage.quickActionCommand command userPrompt tabId]
    if command = "/clear" then (st1, msgs)
    else (appendPromptAndStream st1 tabId userPrompt, msgs)
  | none =>
    let msgs := [OutboundMessage.chatPrompt prompt tabId triggerType]
    (appendPromptAndStream st tabId prompt.escapedPrompt, msgs)

/-- Modelled from the spec: `tabFactory.createTab` (the tab factory lives
outside `src/`) — the seed store of a freshly created tab. -/
def tabFactoryCreateTab (needWelcomeMessages : Bool) (chatMessages : Option (List ChatItem)) : StoreUpdate :=
  { chatItems := some (chatMessages.getD (if needWelcomeMessages then [] else []))
    loadingChat := some false
    promptInputDisabledState := some false }

/-- `createTabId` of `mynahUi.ts`: create a tab through the store; on
failure surface the "no more tabs" warning and return no id. -/
def createTabId (st : MynahUIState) (needWelcomeMessages : Bool)
    (chatMessages : Option (List ChatItem)) : MynahUIState × Option String :=
  match mynahUpdateStoreNewTab st (tabFactoryCreateTab needWelcomeMessages chatMessages) with
  | (st1, none) =>
    (mynahNotify st1 { ntype := NotificationType.warning, title := none, content := noMoreTabsTooltip },
      none)
  | (st1, some tabId) => (st1, some tabId)

/-- `getOrCreateTabId` of `mynahUi.ts`: the selected tab's id, or a tab
created on the spot. -/
def getOrCreateTabId (st : MynahUIState) : MynahUIState × Option String :=
  match st.selectedTabId with
  | some tabId => (st, some tabId)
  | none => createTabId st false none

/-- Modelled from the spec: `isValidAuthFollowUpType` of the external
`@aws/chat-client-ui-types` package — membership in the fixed set of
recognized authentication follow-up types. -/
def isValidAuthFollowUpType (t : String) : Bool :=
  t = "full-auth" || t = "re-auth" || t = "missing_scopes" || t = "use-supported-auth"

/-- The auth-follow-up test of `addChatResponse`: the first follow-up
option exists and carries a truthy, recognized auth type. -/
def isAuthFollowUpResult (r : ChatResult) : Bool :=
  match r.followUp.bind (fun f => f.options) with
  | some (o :: _) =>
    match o.type with
    | some t => decide (t ≠ "") && isValidAuthFollowUpType t
    | none => false
  | _ => false

/-- `addChatResponse` of `mynahUi.ts`. -/
def addChatResponse (st : MynahUIState) (chatResult : ChatResult) (tabId : String)
    (isPartialResult : Bool) : MynahUIState :=
  let header := buildHeader chatResult
  if isPartialResult then
    mynahUpdateLastChatAnswer st tabId
      { body := chatResult.body, header := header, messageId := chatResult.messageId,
        followUp := chatResult.followUp, relatedContent := chatResult.relatedContent,
        canBeVoted := chatResult.canBeVoted }
  else if chatResult.isEmptyObject then st
  else if chatResult.body = some "" ∧ isAuthFollowUpResult chatResult then
    mynahAddChatItem st tabId
      { type := ChatItemType.systemPrompt, body := chatResult.body, header := none,
        messageId := chatResult.messageId, followUp := chatResult.followUp,
        relatedContent := chatResult.relatedContent, canBeVoted := chatResult.canBeVoted }
  else
    let followUps : FollowUpBlock :=
      match chatResult.followUp with
      | some f => { text := some (f.text.getD "Suggested follow up questions:"), options := f.options }
      | none => { text := none, options := none }
    let st1 := mynahUpdateLastChatAnswer st tabId
      { body := chatResult.body, header := header, messageId := chatResult.messageId,
        followUp := some followUps, relatedContent := chatResult.relatedContent,
        canBeVoted := chatResult.canBeVoted }
    let st2 := mynahEndMessageStream st1 tabId (chatResult.messageId.getD "")
    mynahUpdateStoreExisting st2 tabId
      { chatItems := none, loadingChat := some false, promptInputDisabledState := some false }

/-- `showError` of `mynahUi.ts`. -/
def showError (st : MynahUIState) (params : ErrorParams) : MynahUIState × List OutboundMessage :=
  match getOrCreateTabId st with
  | (st1, none) => (st1, [])
  | (st1, some tabId) =>
    let answer : ChatItem :=
      { type := ChatItemType.answer,
        body := some ("**" ++ params.title ++ "** \n" ++ params.message),
        header := none, messageId := none, followUp := none, relatedContent := none,
        canBeVoted := none }
    let st2 := mynahUpdateStoreExisting st1 tabId
      { chatItems := none, loadingChat := some false, promptInputDisabledState := some false }
    let st3 := mynahAddChatItem st2 params.tabId answer
    (st3, [OutboundMessage.error params])

/-- A tab's chat-item count, the observation used to state that an
operation never appends (or appends exactly one item). -/
def chatItemsCount (st : MynahUIState) (tabId : String) : Option Nat :=
  (findTab st.tabs tabId).map fun t => t.chatItems.length

/-- A tab's `loadingChat` flag. -/
def tabLoading (st : MynahUIState) (tabId : String) : Option Bool :=
  (findTab st.tabs tabId).map fun t => t.loadingChat

/-- A tab's `promptInputDisabledState` flag. -/
def tabInputDisabled (st : MynahUIState) (tabId : String) : Option Bool :=
  (findTab st.tabs tabId).map fun t => t.promptInputDisabledState

/-- The type of a tab's last chat item. -/
def lastItemType (st : MynahUIState) (tabId : String) : Option (Option ChatItemType) :=
  (findTab st.tabs tabId).map fun t => (t.chatItems.getLast?).map fun i => i.type

/-- The coarse user intents produced by the intent guesser
(`UserIntent` of the streaming client). -/
inductive UserIntent where
  | explainCodeSelection
  | suggestAlternateImplementation
  | applyCommonBestPractices
  | improveCode
deriving DecidableEq, Repr

/-- Whether the second character list is an initial segment of the
first. -/
def charsStartWith : List Char → List Char → Bool
  | _, [] => true
  | [], _ :: _ => false
  | c :: cs, d :: ds => (c = d) && charsStartWith cs ds

/-- The anchored case-insensitive test `/^pat/i.test(p)` for an
ASCII-letter pattern `pat`: lower-case the prompt's characters and
compare the pattern against the front. -/
def lowerStartsWith (p : String) (pat : String) : Bool :=
  charsStartWith (p.data.map Char.toLower) pat.data

/-- `QChatTriggerContext.#guessIntentFromPrompt`: ordered case-insensitive
anchored tests `/^explain/i`, `/^refactor/i`, `/^fix/i`, `/^optimize/i`. -/
def guessIntentFromPrompt (prompt : Option String) : Option UserIntent :=
  match prompt with
  | none => none
  | some p =>
    if lowerStartsWith p "explain" then some UserIntent.explainCodeSelection
    else if lowerStartsWith p "refactor" then some UserIntent.suggestAlternateImplementation
    else if lowerStartsWith p "fix" then some UserIntent.applyCommonBestPractices
    else if lowerStartsWith p "optimize" then some UserIntent.improveCode
    else none

/-- A cursor position (`CursorState` of the server interface). -/
structure CursorState where
  line : Nat
  character : Nat
deriving DecidableEq, Repr

/-- A tool entry of the outbound payload, opaque here. -/
structure Tool where
  name : String
deriving DecidableEq, Repr

/-- The trigger context consumed by `getChatParamsFromTrigger`. -/
structure TriggerContext where
  cursorState : Option CursorState
  relativeFilePath : Option String
  text : Option String
  programmingLanguage : Option String
  userIntent : Option UserIntent
deriving DecidableEq, Repr

/-- The prompt carried by the chat params (`params.prompt`). -/
structure ServerPrompt where
  prompt : Option String
  escapedPrompt : Option String
deriving DecidableEq, Repr

/-- JavaScript string truthiness of an optional string: present and
non-empty. -/
def optStrTruthy (s : Option String) : Bool :=
  match s with
  | some t => decide (t ≠ "")
  | none => false

/-- The document block of the outbound editor state. -/
structure EditorStateDocument where
  text : Option String
  programmingLanguage : Option String
  relativeFilePath : Option String
deriving DecidableEq, Repr

/-- The editor-state block of the outbound message context. -/
structure EditorState where
  cursorState : CursorState
  document : EditorStateDocument
deriving DecidableEq, Repr

/-- `userInputMessageContext` of the outbound message. -/
structure UserInputMessageContext where
  editorState : Option EditorState
  tools : List Tool
deriving DecidableEq, Repr

/-- `userInputMessage` of the outbound conversation message. -/
structure UserInputMessage where
  content : Option String
  userInputMessageContext : UserInputMessageContext
  userIntent : Option UserIntent
  origin : String
deriving DecidableEq, Repr

/-- The outbound `SendMessageCommandInput`, flattened to the fields the
builder sets (`conversationState.currentMessage.userInputMessage` is
`currentMessage` here). -/
structure SendMessageCommandInput where
  chatTriggerType : String
  currentMessage : UserInputMessage
  customizationArn : Option String
  profileArn : Option String
deriving DecidableEq, Repr

/-- The TypeScript default of the `tools` parameter of
`getChatParamsFromTrigger`. -/
def defaultTools : List Tool := []

/-- `QChatTriggerContext.getChatParamsFromTrigger`. -/
def getChatParamsFromTrigger (params : ServerPrompt) (triggerContext : TriggerContext)
    (chatTriggerType : String) (customizationArn : Option String) (profileArn : Option String)
    (tools : List Tool) : SendMessageCommandInput :=
  { chatTriggerType := chatTriggerType
    currentMessage :=
      { content := params.escapedPrompt.orElse fun _ => params.prompt
        userInputMessageContext :=
          match triggerContext.cursorState, optStrTruthy triggerContext.relativeFilePath with
          | some cs, true =>
            { editorState := some
                { cursorState := cs
                  document :=
                    { text := triggerContext.text
                      programmingLanguage := triggerContext.programmingLanguage
                      relativeFilePath := triggerContext.relativeFilePath } }
              tools := tools }
          | _, _ => { editorState := none, tools := tools }
        userIntent := triggerContext.userIntent
        origin := "IDE" }
    customizationArn := customizationArn
    profileArn := profileArn }

mutual
/-- A backend context command (`ContextCommand` of the runtimes types):
label, description, abstract icon id, optional nested child groups. -/
inductive ContextCommand : Type where
  | mk (command : String) (description : Option String) (icon : Option String)
       (children : Option (List ContextCommandGroup)) : ContextCommand
/-- A backend context-command group: group name plus its commands. -/
inductive ContextCommandGroup : Type where
  | mk (groupName : Option String) (commands : List ContextCommand) : ContextCommandGroup
end

/-- The UI toolkit's icon representation, opaque here. -/
structure MynahIcon where
  name : String
deriving DecidableEq, Repr

/-- Modelled from the spec: `toMynahIcon` of `utils.ts` (outside `src/`)
— translate an abstract icon identifier into the UI toolkit's icon
representation. -/
def toMynahIcon (icon : Option String) : Option MynahIcon :=
  icon.map MynahIcon.mk

mutual
/-- A UI quick-action command (`QuickActionCommand` of the UI toolkit). -/
inductive QuickActionCommand : Type where
  | mk (command : String) (description : Option String) (icon : Option MynahIcon)
       (children : Option (List QuickActionCommandGroup)) : QuickActionCommand
/-- A UI quick-action command group. -/
inductive QuickActionCommandGroup : Type where
  | mk (groupName : Option String) (commands : List QuickActionCommand) : QuickActionCommandGroup
end

mutual
/-- One node of `toContextCommands`: copy every field, recurse into the
child groups, translate the icon. -/
def toContextCommand : ContextCommand → QuickActionCommand
  | ContextCommand.mk command description icon children =>
    QuickActionCommand.mk command description (toMynahIcon icon) (toContextCommandChildren children)
/-- The `command.children?.map(...)` step of `toContextCommands`. -/
def toContextCommandChildren :
    Option (List ContextCommandGroup) → Option (List QuickActionCommandGroup)
  | none => none
  | some gs => some (toContextCommandGroups gs)
/-- Map a list of child groups. -/
def toContextCommandGroups : List ContextCommandGroup → List QuickActionCommandGroup
  | [] => []
  | g :: gs => toContextCommandGroup g :: toContextCommandGroups gs
/-- One child group: copy the group fields, recurse into its commands. -/
def toContextCommandGroup : ContextCommandGroup → QuickActionCommandGroup
  | ContextCommandGroup.mk groupName commands =>
    QuickActionCommandGroup.mk groupName (toContextCommands commands)
/-- `toContextCommands` of `mynahUi.ts`. -/
def toContextCommands : List ContextCommand → List QuickActionCommand
  | [] => []
  | c :: cs => toContextCommand c :: toContextCommands cs
end

mutual
/-- Number of command nodes in one backend command (itself plus all
nested descendants). -/
def countCommand : ContextCommand → Nat
  | ContextCommand.mk _ _ _ children => 1 + countChildren children
/-- Number of command nodes below an optional child-group list. -/
def countChildren : Option (List ContextCommandGroup) → Nat
  | none => 0
  | some gs => countGroups gs
/-- Number of command nodes in a list of backend groups. -/
def countGroups : List ContextCommandGroup → Nat
  | [] => 0
  | g :: gs => countGroup g + countGroups gs
/-- Number of command nodes in one backend group. -/
def countGroup : ContextCommandGroup → Nat
  | ContextCommandGroup.mk _ commands => countCommands commands
/-- Number of command nodes in a list of backend commands. -/
def countCommands : List ContextCommand → Nat
  | [] => 0
  | c :: cs => countCommand c + countCommands cs
end

mutual
/-- Number of command nodes in one UI command. -/
def countQCommand : QuickActionCommand → Nat
  | QuickActionCommand.mk _ _ _ children => 1 + countQChildren children
/-- Number of command nodes below an optional UI child-group list. -/
def countQChildren : Option (List QuickActionCommandGroup) → Nat
  | none => 0
  | some gs => countQGroups gs
/-- Number of command nodes in a list of UI groups. -/
def countQGroups : List QuickActionCommandGroup → Nat
  | [] => 0
  | g :: gs => countQGroup g + countQGroups gs
/-- Number of command nodes in one UI group. -/
def countQGroup : QuickActionCommandGroup → Nat
  | QuickActionCommandGroup.mk _ commands => countQCommands commands
/-- Number of command nodes in a list of UI commands. -/
def countQCommands : List QuickActionCommand → Nat
  | [] => 0
  | c :: cs => countQCommand c + countQCommands cs
end

mutual
/-- Erase the icons of a backend command tree, keeping every other field
and the nesting structure: the icon-free skeleton. -/
def eraseIconsC : ContextCommand → ContextCommand
  | ContextCommand.mk command description _ children =>
    ContextCommand.mk command description none (eraseIconsCChildren children)
/-- Icon erasure below an optional child-group list. -/
def eraseIconsCChildren : Option (List ContextCommandGroup) → Option (List ContextCommandGroup)
  | none => none
  | some gs => some (eraseIconsCGroups gs)
/-- Icon erasure on a list of groups. -/
def eraseIconsCGroups : List ContextCommandGroup → List ContextCommandGroup
  | [] => []
  | g :: gs => eraseIconsCGroup g :: eraseIconsCGroups gs
/-- Icon erasure on one group. -/
def eraseIconsCGroup : ContextCommandGroup → ContextCommandGroup
  | ContextCommandGroup.mk groupName commands =>
    ContextCommandGroup.mk groupName (eraseIconsCCommands commands)
/-- Icon erasure on a list of commands. -/
def eraseIconsCCommands : List ContextCommand → List ContextCommand
  | [] => []
  | c :: cs => eraseIconsC c :: eraseIconsCCommands cs
end

mutual
/-- The icon-free skeleton of a UI command tree, expressed in the backend
schema so the two sides can be compared field by field. -/
def eraseIconsQ : QuickActionCommand → ContextCommand
  | QuickActionCommand.mk command description _ children =>
    ContextCommand.mk command description none (eraseIconsQChildren children)
/-- Skeleton below an optional UI child-group list. -/
def eraseIconsQChildren : Option (List QuickActionCommandGroup) → Option (List ContextCommandGroup)
  | none => none
  | some gs => some (eraseIconsQGroups gs)
/-- Skeleton of a list of UI groups. -/
def eraseIconsQGroups : List QuickActionCommandGroup → List ContextCommandGroup
  | [] => []
  | g :: gs => eraseIconsQGroup g :: eraseIconsQGroups gs
/-- Skeleton of one UI group. -/
def eraseIconsQGroup : QuickActionCommandGroup → ContextCommandGroup
  | QuickActionCommandGroup.mk groupName commands =>
    ContextCommandGroup.mk groupName (eraseIconsQCommands commands)
/-- Skeleton of a list of UI commands. -/
def eraseIconsQCommands : List QuickActionCommand → List ContextCommand
  | [] => []
  | c :: cs => eraseIconsQ c :: eraseIconsQCommands cs
end

mutual
/-- Preorder list of the icons of a backend command tree. -/
def iconsC : ContextCommand → List (Option String)
  | ContextCommand.mk _ _ icon children => icon :: iconsCChildren children
/-- Icons below an optional child-group list. -/
def iconsCChildren : Option (List ContextCommandGroup) → List (Option String)
  | none => []
  | some gs => iconsCGroups gs
/-- Icons of a list of groups. -/
def iconsCGroups : List ContextCommandGroup → List (Option String)
  | [] => []
  | g :: gs => iconsCGroup g ++ iconsCGroups gs
/-- Icons of one group. -/
def iconsCGroup : ContextCommandGroup → List (Option String)
  | ContextCommandGroup.mk _ commands => iconsCCommands commands
/-- Icons of a list of commands. -/
def iconsCCommands : List ContextCommand → List (Option String)
  | [] => []
  | c :: cs => iconsC c ++ iconsCCommands cs
end

mutual
/-- Preorder list of the icons of a UI command tree. -/
def iconsQ : QuickActionCommand → List (Option MynahIcon)
  | QuickActionCommand.mk _ _ icon children => icon :: iconsQChildren children
/-- Icons below an optional UI child-group list. -/
def iconsQChildren : Option (List QuickActionCommandGroup) → List (Option MynahIcon)
  | none => []
  | some gs => iconsQGroups gs
/-- Icons of a list of UI groups. -/
def iconsQGroups : List QuickActionCommandGroup → List (Option MynahIcon)
  | [] => []
  | g :: gs => iconsQGroup g ++ iconsQGroups gs
/-- Icons of one UI group. -/
def iconsQGroup : QuickActionCommandGroup → List (Option MynahIcon)
  | QuickActionCommandGroup.mk _ commands => iconsQCommands commands
/-- Icons of a list of UI commands. -/
def iconsQCommands : List QuickActionCommand → List (Option MynahIcon)
  | [] => []
  | c :: cs => iconsQ c ++ iconsQCommands cs
end

/-! ### Basic lemmas about the modelled store operations -/

theorem findTab_updTab (tabs : List (String × TabState)) (tid q : String)
    (f : TabState → TabState) :
    findTab (updTab tabs tid f) q = if q = tid then (findTab tabs q).map f else findTab tabs q := by
  induction tabs with
  | nil => simp [updTab, findTab]
  | cons p ps ih =>
    by_cases h2 : p.1 = tid
    · by_cases h1 : p.1 = q
      · have hq : q = tid := by rw [← h1, h2]
        simp [updTab, findTab, h1, h2, hq]
      · have hq : q ≠ tid := fun h => h1 (h2.trans h.symm)
        simp [updTab, findTab, h1, h2, hq, Ne.symm hq, ih]
    · by_cases h1 : p.1 = q
      · have hq : q ≠ tid := fun h => h2 (h1.trans h)
        simp [updTab, findTab, h1, h2, hq]
      · simp [updTab, findTab, h1, h2, ih]

theorem updateLast_length (xs : List ChatItem) (u : ChatItemUpdate) :
    (updateLast xs u).length = xs.length := by
  induction xs with
  | nil => simp [updateLast]
  | cons x xs ih =>
    cases xs with
    | nil => simp [updateLast]
    | cons y ys => simpa [updateLast] using ih

theorem chatItemsCount_updateLastChatAnswer (st : MynahUIState) (tabId : String)
    (u : ChatItemUpdate) (tid : String) :
    chatItemsCount (mynahUpdateLastChatAnswer st tabId u) tid = chatItemsCount st tid := by
  simp only [chatItemsCount, mynahUpdateLastChatAnswer, findTab_updTab]
  by_cases h : tid = tabId
  · simp only [h, if_pos rfl]
    cases findTab st.tabs tabId <;> simp [updateLast_length]
  · simp [h]

theorem tabLoading_updateLastChatAnswer (st : MynahUIState) (tabId : String)
    (u : ChatItemUpdate) (tid : String) :
    tabLoading (mynahUpdateLastChatAnswer st tabId u) tid = tabLoading st tid := by
  simp only [tabLoading, mynahUpdateLastChatAnswer, findTab_updTab]
  by_cases h : tid = tabId
  · simp only [h, if_pos rfl]
    cases findTab st.tabs tabId <;> simp
  · simp [h]

theorem tabInputDisabled_updateLastChatAnswer (st : MynahUIState) (tabId : String)
    (u : ChatItemUpdate) (tid : String) :
    tabInputDisabled (mynahUpdateLastChatAnswer st tabId u) tid = tabInputDisabled st tid := by
  simp only [tabInputDisabled, mynahUpdateLastChatAnswer, findTab_updTab]
  by_cases h : tid = tabId
  · simp only [h, if_pos rfl]
    cases findTab st.tabs tabId <;> simp
  · simp [h]

theorem chatItemsCount_addChatItem (st : MynahUIState) (tabId : String) (item : ChatItem)
    (tid : String) :
    chatItemsCount (mynahAddChatItem st tabId item) tid =
      if tid = tabId then (chatItemsCount st tid).map (· + 1) else chatItemsCount st tid := by
  simp only [chatItemsCount, mynahAddChatItem, findTab_updTab]
  by_cases h : tid = tabId
  · simp only [h, if_pos rfl]
    cases findTab st.tabs tabId <;> simp
  · simp [h]

theorem tabLoading_addChatItem (st : MynahUIState) (tabId : String) (item : ChatItem)
    (tid : String) :
    tabLoading (mynahAddChatItem st tabId item) tid = tabLoading st tid := by
  simp only [tabLoading, mynahAddChatItem, findTab_updTab]
  by_cases h : tid = tabId
  · simp only [h, if_pos rfl]
    cases findTab st.tabs tabId <;> simp
  · simp [h]

theorem tabInputDisabled_addChatItem (st : MynahUIState) (tabId : String) (item : ChatItem)
    (tid : String) :
    tabInputDisabled (mynahAddChatItem st tabId item) tid = tabInputDisabled st tid := by
  simp only [tabInputDisabled, mynahAddChatItem, findTab_updTab]
  by_cases h : tid = tabId
  · simp only [h, if_pos rfl]
    cases findTab st.tabs tabId <;> simp
  · simp [h]

theorem chatItemsCount_updateStoreExisting_noItems (st : MynahUIState) (tabId : String)
    (lc pid : Option Bool) (tid : String) :
    chatItemsCount
        (mynahUpdateStoreExisting st tabId
          { chatItems := none, loadingChat := lc, promptInputDisabledState := pid }) tid =
      chatItemsCount st tid := by
  simp only [chatItemsCount, mynahUpdateStoreExisting, findTab_updTab]
  by_cases h : tid = tabId
  · simp only [h, if_pos rfl]
    cases findTab st.tabs tabId <;> simp [applyStoreUpdate]
  · simp [h]

theorem tabLoading_updateStoreExisting (st : MynahUIState) (tabId : String)
    (u : StoreUpdate) (tid : String) :
    tabLoading (mynahUpdateStoreExisting st tabId u) tid =
      if tid = tabId then (tabLoading st tid).map (fun old => u.loadingChat.getD old)
      else tabLoading st tid := by
  simp only [tabLoading, mynahUpdateStoreExisting, findTab_updTab]
  by_cases h : tid = tabId
  · simp only [h, if_pos rfl]
    cases findTab st.tabs tabId <;> simp [applyStoreUpdate]
  · simp [h]

theorem tabInputDisabled_updateStoreExisting (st : MynahUIState) (tabId : String)
    (u : StoreUpdate) (tid : String) :
    tabInputDisabled (mynahUpdateStoreExisting st tabId u) tid =
      if tid = tabId then (tabInputDisabled st tid).map (fun old => u.promptInputDisabledState.getD old)
      else tabInputDisabled st tid := by
  simp only [tabInputDisabled, mynahUpdateStoreExisting, findTab_updTab]
  by_cases h : tid = tabId
  · simp only [h, if_pos rfl]
    cases findTab st.tabs tabId <;> simp [applyStoreUpdate]
  · simp [h]

theorem updTab_length (tabs : List (String × TabState)) (tid : String)
    (f : TabState → TabState) : (updTab tabs tid f).length = tabs.length := by
  induction tabs with
  | nil => simp [updTab]
  | cons p ps ih => simp [updTab, ih]

theorem chatItemsCount_endMessageStream (st : MynahUIState) (tabId mid tid : String) :
    chatItemsCount (mynahEndMessageStream st tabId mid) tid = chatItemsCount st tid := rfl

theorem tabLoading_endMessageStream (st : MynahUIState) (tabId mid tid : String) :
    tabLoading (mynahEndMessageStream st tabId mid) tid = tabLoading st tid := rfl

theorem tabInputDisabled_endMessageStream (st : MynahUIState) (tabId mid tid : String) :
    tabInputDisabled (mynahEndMessageStream st tabId mid) tid = tabInputDisabled st tid := rfl

/-! ### Lemmas about the context-command translation -/

mutual
theorem countQ_toContextCommand : (c : ContextCommand) →
    countQCommand (toContextCommand c) = countCommand c
  | ContextCommand.mk command description icon children => by
    simp [toContextCommand, countQCommand, countCommand, countQ_toContextCommandChildren children]
theorem countQ_toContextCommandChildren : (ch : Option (List ContextCommandGroup)) →
    countQChildren (toContextCommandChildren ch) = countChildren ch
  | none => by simp [toContextCommandChildren, countQChildren, countChildren]
  | some gs => by
    simp [toContextCommandChildren, countQChildren, countChildren, countQ_toContextCommandGroups gs]
theorem countQ_toContextCommandGroups : (gs : List ContextCommandGroup) →
    countQGroups (toContextCommandGroups gs) = countGroups gs
  | [] => by simp [toContextCommandGroups, countQGroups, countGroups]
  | g :: gs => by
    simp [toContextCommandGroups, countQGroups, countGroups, countQ_toContextCommandGroup g,
      countQ_toContextCommandGroups gs]
theorem countQ_toContextCommandGroup : (g : ContextCommandGroup) →
    countQGroup (toContextCommandGroup g) = countGroup g
  | ContextCommandGroup.mk groupName commands => by
    simp [toContextCommandGroup, countQGroup, countGroup, countQ_toContextCommands commands]
theorem countQ_toContextCommands : (cs : List ContextCommand) →
    countQCommands (toContextCommands cs) = countCommands cs
  | [] => by simp [toContextCommands, countQCommands, countCommands]
  | c :: cs => by
    simp [toContextCommands, countQCommands, countCommands, countQ_toContextCommand c,
      countQ_toContextCommands cs]
end

mutual
theorem erase_toContextCommand : (c : ContextCommand) →
    eraseIconsQ (toContextCommand c) = eraseIconsC c
  | ContextCommand.mk command description icon children => by
    simp [toContextCommand, eraseIconsQ, eraseIconsC, erase_toContextCommandChildren children]
theorem erase_toContextCommandChildren : (ch : Option (List ContextCommandGroup)) →
    eraseIconsQChildren (toContextCommandChildren ch) = eraseIconsCChildren ch
  | none => by simp [toContextCommandChildren, eraseIconsQChildren, eraseIconsCChildren]
  | some gs => by
    simp [toContextCommandChildren, eraseIconsQChildren, eraseIconsCChildren,
      erase_toContextCommandGroups gs]
theorem erase_toContextCommandGroups : (gs : List ContextCommandGroup) →
    eraseIconsQGroups (toContextCommandGroups gs) = eraseIconsCGroups gs
  | [] => by simp [toContextCommandGroups, eraseIconsQGroups, eraseIconsCGroups]
  | g :: gs => by
    simp [toContextCommandGroups, eraseIconsQGroups, eraseIconsCGroups,
      erase_toContextCommandGroup g, erase_toContextCommandGroups gs]
theorem erase_toContextCommandGroup : (g : ContextCommandGroup) →
    eraseIconsQGroup (toContextCommandGroup g) = eraseIconsCGroup g
  | ContextCommandGroup.mk groupName commands => by
    simp [toContextCommandGroup, eraseIconsQGroup, eraseIconsCGroup,
      erase_toContextCommands commands]
theorem erase_toContextCommands : (cs : List ContextCommand) →
    eraseIconsQCommands (toContextCommands cs) = eraseIconsCCommands cs
  | [] => by simp [toContextCommands, eraseIconsQCommands, eraseIconsCCommands]
  | c :: cs => by
    simp [toContextCommands, eraseIconsQCommands, eraseIconsCCommands,
      erase_toContextCommand c, erase_toContextCommands cs]
end

mutual
theorem icons_toContextCommand : (c : ContextCommand) →
    iconsQ (toContextCommand c) = (iconsC c).map toMynahIcon
  | ContextCommand.mk command description icon children => by
    simp [toContextCommand, iconsQ, iconsC, icons_toContextCommandChildren children]
theorem icons_toContextCommandChildren : (ch : Option (List ContextCommandGroup)) →
    iconsQChildren (toContextCommandChildren ch) = (iconsCChildren ch).map toMynahIcon
  | none => by simp [toContextCommandChildren, iconsQChildren, iconsCChildren]
  | some gs => by
    simp [toContextCommandChildren, iconsQChildren, iconsCChildren,
      icons_toContextCommandGroups gs]
theorem icons_toContextCommandGroups : (gs : List ContextCommandGroup) →
    iconsQGroups (toContextCommandGroups gs) = (iconsCGroups gs).map toMynahIcon
  | [] => by simp [toContextCommandGroups, iconsQGroups, iconsCGroups]
  | g :: gs => by
    simp [toContextCommandGroups, iconsQGroups, iconsCGroups,
      icons_toContextCommandGroup g, icons_toContextCommandGroups gs]
theorem icons_toContextCommandGroup : (g : ContextCommandGroup) →
    iconsQGroup (toContextCommandGroup g) = (iconsCGroup g).map toMynahIcon
  | ContextCommandGroup.mk groupName commands => by
    simp [toContextCommandGroup, iconsQGroup, iconsCGroup, icons_toContextCommands commands]
theorem icons_toContextCommands : (cs : List ContextCommand) →
    iconsQCommands (toContextCommands cs) = (iconsCCommands cs).map toMynahIcon
  | [] => by simp [toContextCommands, iconsQCommands, iconsCCommands]
  | c :: cs => by
    simp [toContextCommands, iconsQCommands, iconsCCommands,
      icons_toContextCommand c, icons_toContextCommands cs]
end

/-! ### Concrete fixtures used by witnesses and counterexamples -/

/-- A fresh streaming answer item, as appended by `handleChatPrompt`. -/
def streamItem : ChatItem :=
  { type := ChatItemType.answerStream, body := none, header := none, messageId := none,
    followUp := none, relatedContent := none, canBeVoted := none }

/-- A one-tab state whose tab `t0` has an open stream and is loading. -/
def stOne : MynahUIState :=
  { tabs := [("t0", { chatItems := [streamItem], loadingChat := true, promptInputDisabledState := true })]
    selectedTabId := some "t0"
    nextTabId := 1
    notifications := []
    endMessageStreamCalls := [] }

/-- The completely empty chat result object (no keys). -/
def emptyChatResult : ChatResult :=
  { type := none, body := none, messageId := none, followUp := none, relatedContent := none,
    canBeVoted := none, contextList := none }

/-- A plain final result with a body and a message id. -/
def plainFinalResult : ChatResult :=
  { type := none, body := some "All done.", messageId := some "m1", followUp := none,
    relatedContent := none, canBeVoted := none, contextList := none }

/-- An auth-follow-up final result: empty body plus a recognized auth
type in the first follow-up option. -/
def authFollowUpResult : ChatResult :=
  { type := none, body := some "", messageId := some "m2",
    followUp := some
      { text := none,
        options := some [{ pillText := "Authenticate", prompt := none, type := some "re-auth" }] },
    relatedContent := none, canBeVoted := none, contextList := none }

/-- A ten-tab state sitting exactly at the live-tab cap. -/
def stFull : MynahUIState :=
  { tabs := (List.range 10).map fun i =>
      ("tab-" ++ toString i, { chatItems := [], loadingChat := false, promptInputDisabledState := false })
    selectedTabId := none
    nextTabId := 10
    notifications := []
    endMessageStreamCalls := [] }

/-! ### Claims -/

/-- **C3** (counterexample): the code formats the range (3, 10) as
`"line 3 - 10"`, not `"line 3 - line 10"` as the claim states: the
template is `line ${first} - ${second}`, without a second `line`. -/
theorem claim3_counterexample :
    formatLineRange { first := 3, second := 10 } ≠ "line 3 - line 10" ∧
      formatLineRange { first := 3, second := 10 } = "line 3 - 10" := by
  constructor <;> decide

/-- **C3** (amended): for a per-file line range of a result's context
list with neither bound equal to the sentinel −1, the label is the string
`line A - B` (so (3, 10) formats as `"line 3 - 10"`); a range with either
bound −1 yields the empty string. -/
theorem claim3_theorem (a b : Int) (hna : a ≠ -1) (hnb : b ≠ -1) :
    formatLineRange { first := a, second := b }
        = "line " ++ toString a ++ " - " ++ toString b
  ∧ formatLineRange { first := -1, second := b } = ""
  ∧ formatLineRange { first := a, second := -1 } = "" := by
  refine ⟨?_, ?_, ?_⟩
  · have h : ¬ (a = -1 ∨ b = -1) := by
      rintro (h | h)
      · exact hna h
      · exact hnb h
    simp [formatLineRange, h]
  · simp [formatLineRange]
  · simp [formatLineRange]

/-- **C3** (witness): the amended statement at the spec's own examples,
ranges (3, 10) and (−1, 10). -/
theorem claim3_witness :
    formatLineRange { first := 3, second := 10 } = "line 3 - 10" ∧
      formatLineRange { first := -1, second := 10 } = "" := by
  have h := claim3_theorem 3 10 (by decide) (by decide)
  exact ⟨h.1.trans (by decide), h.2.1⟩

/-- **C7**: intent guessing checks the case-insensitive anchored
patterns `explain`, `refactor`, `fix`, `optimize` in that priority
order, maps the first match to the corresponding fixed intent, and
yields no intent when none matches as a prefix of the prompt (and for an
absent prompt). -/
theorem claim7_theorem (p : String) :
    (lowerStartsWith p "explain" = true →
        guessIntentFromPrompt (some p) = some UserIntent.explainCodeSelection)
  ∧ (lowerStartsWith p "explain" = false → lowerStartsWith p "refactor" = true →
        guessIntentFromPrompt (some p) = some UserIntent.suggestAlternateImplementation)
  ∧ (lowerStartsWith p "explain" = false → lowerStartsWith p "refactor" = false →
        lowerStartsWith p "fix" = true →
        guessIntentFromPrompt (some p) = some UserIntent.applyCommonBestPractices)
  ∧ (lowerStartsWith p "explain" = false → lowerStartsWith p "refactor" = false →
        lowerStartsWith p "fix" = false → lowerStartsWith p "optimize" = true →
        guessIntentFromPrompt (some p) = some UserIntent.improveCode)
  ∧ (lowerStartsWith p "explain" = false → lowerStartsWith p "refactor" = false →
        lowerStartsWith p "fix" = false → lowerStartsWith p "optimize" = false →
        guessIntentFromPrompt (some p) = none)
  ∧ guessIntentFromPrompt none = none := by
  refine ⟨?_, ?_, ?_, ?_, ?_, rfl⟩ <;> intros <;> simp_all [guessIntentFromPrompt]

/-- **C7** (witness): the spec's examples — `"Explain this function"`
gives the explain intent, `"refactor it"` the alternate-implementation
intent, `"hello"` no intent, and `"please explain"` no intent since the
keyword is not a prefix. -/
theorem claim7_witness :
    guessIntentFromPrompt (some "Explain this function") = some UserIntent.explainCodeSelection
  ∧ guessIntentFromPrompt (some "refactor it") = some UserIntent.suggestAlternateImplementation
  ∧ guessIntentFromPrompt (some "hello") = none
  ∧ guessIntentFromPrompt (some "please explain") = none := by
  have h1 := claim7_theorem "Explain this function"
  have h2 := claim7_theorem "refactor it"
  have h3 := claim7_theorem "hello"
  have h4 := claim7_theorem "please explain"
  exact ⟨h1.1 (by decide), h2.2.1 (by decide) (by decide),
    h3.2.2.2.2.1 (by decide) (by decide) (by decide) (by decide),
    h4.2.2.2.2.1 (by decide) (by decide) (by decide) (by decide)⟩

/-- **C6**: a completely empty result object received as a non-partial
(final) update is a strict no-op: the state — every tab's items and
flags, the notification list, and the end-of-stream log — is returned
unchanged, so no finalize transition occurs and no error is surfaced. -/
theorem claim6_theorem (st : MynahUIState) (r : ChatResult) (tabId : String)
    (h : r.isEmptyObject = true) :
    addChatResponse st r tabId false = st := by
  simp [addChatResponse, h]

/-- **C6** (witness): the empty result leaves a loading, streaming tab
exactly as it was. -/
theorem claim6_witness : addChatResponse stOne emptyChatResult "t0" false = stOne :=
  claim6_theorem stOne emptyChatResult "t0" (by decide)

/-- **C4**: creating a tab when the live-tab count is already at the cap
(`maxTabs = 10`) returns no tab id, appends the "no more tabs" warning
notification (not an error), and leaves every existing tab — and the
selection — unchanged. -/
theorem claim4_theorem (st : MynahUIState) (needWelcome : Bool)
    (msgs : Option (List ChatItem)) (h : st.tabs.length = maxTabs) :
    (createTabId st needWelcome msgs).2 = none
  ∧ (createTabId st needWelcome msgs).1.tabs = st.tabs
  ∧ (createTabId st needWelcome msgs).1.selectedTabId = st.selectedTabId
  ∧ (createTabId st needWelcome msgs).1.notifications = st.notifications ++
      [{ ntype := NotificationType.warning, title := none, content := noMoreTabsTooltip }]
  ∧ maxTabs = 10 := by
  have hlt : ¬ st.tabs.length < maxTabs := by omega
  refine ⟨?_, ?_, ?_, ?_, rfl⟩ <;> simp [createTabId, mynahUpdateStoreNewTab, hlt, mynahNotify]

/-- **C4** (witness): the eleventh creation on a ten-tab state fails
with the warning notice. -/
theorem claim4_witness :
    (createTabId stFull false none).2 = none
  ∧ (createTabId stFull false none).1.tabs = stFull.tabs := by
  have h := claim4_theorem stFull false none (by decide)
  exact ⟨h.1, h.2.1⟩

/-- **C8**: the outbound payload always carries the prompt text
(preferring the pre-escaped variant) and the origin tag `IDE`; it carries
an editor-state block exactly when the trigger context has a cursor state
and a (truthy) relative file path, and that block copies the cursor
state, extracted text, language and file path; the tool list is passed
through and is empty under the TypeScript default. -/
theorem claim8_theorem (params : ServerPrompt) (tc : TriggerContext) (ctt : String)
    (ca pa : Option String) (tools : List Tool) :
    (∀ e, params.escapedPrompt = some e →
        (getChatParamsFromTrigger params tc ctt ca pa tools).currentMessage.content = some e)
  ∧ (params.escapedPrompt = none →
        (getChatParamsFromTrigger params tc ctt ca pa tools).currentMessage.content = params.prompt)
  ∧ (getChatParamsFromTrigger params tc ctt ca pa tools).currentMessage.origin = "IDE"
  ∧ ((getChatParamsFromTrigger params tc ctt ca pa
        tools).currentMessage.userInputMessageContext.editorState.isSome
      = (tc.cursorState.isSome && optStrTruthy tc.relativeFilePath))
  ∧ (∀ es, (getChatParamsFromTrigger params tc ctt ca pa
        tools).currentMessage.userInputMessageContext.editorState = some es →
          tc.cursorState = some es.cursorState
        ∧ es.document.text = tc.text
        ∧ es.document.programmingLanguage = tc.programmingLanguage
        ∧ es.document.relativeFilePath = tc.relativeFilePath)
  ∧ (getChatParamsFromTrigger params tc ctt ca pa
        tools).currentMessage.userInputMessageContext.tools = tools
  ∧ (getChatParamsFromTrigger params tc ctt ca pa
        defaultTools).currentMessage.userInputMessageContext.tools = [] := by
  refine ⟨?_, ?_, rfl, ?_, ?_, ?_, ?_⟩
  · intro e he
    simp [getChatParamsFromTrigger, he, Option.orElse]
  · intro he
    simp [getChatParamsFromTrigger, he, Option.orElse]
  · cases hc : tc.cursorState <;> cases ht : optStrTruthy tc.relativeFilePath <;>
      simp [getChatParamsFromTrigger, hc, ht]
  · intro es hes
    rw [getChatParamsFromTrigger] at hes
    cases hc : tc.cursorState <;> cases ht : optStrTruthy tc.relativeFilePath
    case some.true =>
      simp [hc, ht] at hes
      simp [hc, ← hes]
    all_goals simp [hc, ht] at hes
  · cases hc : tc.cursorState <;> cases ht : optStrTruthy tc.relativeFilePath <;>
      simp [getChatParamsFromTrigger, hc, ht]
  · cases hc : tc.cursorState <;> cases ht : optStrTruthy tc.relativeFilePath <;>
      simp [getChatParamsFromTrigger, hc, ht, defaultTools]

/-- **C8** (witness): a trigger context carrying both a cursor state and
a non-empty relative file path yields a payload with the escaped prompt,
an editor-state block, and the default empty tool list. -/
theorem claim8_witness :
    (getChatParamsFromTrigger { prompt := some "hi", escapedPrompt := some "hi-escaped" }
        { cursorState := some { line := 1, character := 2 },
          relativeFilePath := some "src/a.ts", text := some "code",
          programmingLanguage := some "typescript", userIntent := none }
        "MANUAL" none none defaultTools).currentMessage.content = some "hi-escaped"
  ∧ (getChatParamsFromTrigger { prompt := some "hi", escapedPrompt := some "hi-escaped" }
        { cursorState := some { line := 1, character := 2 },
          relativeFilePath := some "src/a.ts", text := some "code",
          programmingLanguage := some "typescript", userIntent := none }
        "MANUAL" none none defaultTools).currentMessage.userInputMessageContext.editorState.isSome
      = true
  ∧ (getChatParamsFromTrigger { prompt := some "hi", escapedPrompt := some "hi-escaped" }
        { cursorState := some { line := 1, character := 2 },
          relativeFilePath := some "src/a.ts", text := some "code",
          programmingLanguage := some "typescript", userIntent := none }
        "MANUAL" none none defaultTools).currentMessage.userInputMessageContext.tools = [] := by
  have h := claim8_theorem { prompt := some "hi", escapedPrompt := some "hi-escaped" }
    { cursorState := some { line := 1, character := 2 },
      relativeFilePath := some "src/a.ts", text := some "code",
      programmingLanguage := some "typescript", userIntent := none }
    "MANUAL" none none defaultTools
  refine ⟨h.1 "hi-escaped" rfl, ?_, h.2.2.2.2.2.2⟩
  rw [h.2.2.2.1]
  decide

/-- **C9**: the context-command translation preserves the total node
count and, icons erased, the whole tree — every non-icon field and the
nesting structure are copied unchanged at arbitrary depth — while the
preorder icon sequence is exactly the input's icons mapped through the
icon translation.  (The embedding is a pure function, so the input tree
is never mutated.) -/
theorem claim9_theorem (commands : List ContextCommand) :
    countQCommands (toContextCommands commands) = countCommands commands
  ∧ eraseIconsQCommands (toContextCommands commands) = eraseIconsCCommands commands
  ∧ iconsQCommands (toContextCommands commands) = (iconsCCommands commands).map toMynahIcon :=
  ⟨countQ_toContextCommands commands, erase_toContextCommands commands,
    icons_toContextCommands commands⟩

/-- The `/clear` quick-action prompt used by C2's counterexample. -/
def clearPrompt : ChatPrompt :=
  { prompt := some "/clear", escapedPrompt := some "/clear", command := some "/clear" }

/-- The `/help` quick-action prompt used by C2's witness. -/
def helpPrompt : ChatPrompt :=
  { prompt := some "/help", escapedPrompt := some "/help", command := some "/help" }

/-- **C2** (counterexample): submitting `/clear` does empty the tab's
item sequence, but it still emits an outbound quick-action message to
the backend channel (`messager.onQuickActionCommand` is called for every
quick-action command, `/clear` included), contradicting the claim that
no outbound message is emitted. -/
theorem claim2_counterexample :
    (handleChatPrompt stOne "t0" clearPrompt none).2
        = [OutboundMessage.quickActionCommand "/clear" (some "/clear") "t0"]
  ∧ chatItemsCount (handleChatPrompt stOne "t0" clearPrompt none).1 "t0" = some 0 := by
  constructor <;> decide

/-- **C2** (amended): `/clear` empties the tab's chat item sequence,
emits exactly one quick-action command message to the backend, and
returns early — no prompt item is appended and the loading and
input-disabled flags are untouched; any other quick-action command is
passed through to the backend (with `/help` swapping in the default help
prompt). -/
theorem claim2_theorem (st : MynahUIState) (tabId : String) (p : ChatPrompt)
    (tt : Option String) (c : String) (hc : p.command = some c) :
    (c = "/clear" →
        (handleChatPrompt st tabId p tt).2
            = [OutboundMessage.quickActionCommand "/clear" p.escapedPrompt tabId]
      ∧ chatItemsCount (handleChatPrompt st tabId p tt).1 tabId
            = (chatItemsCount st tabId).map (fun _ => 0)
      ∧ (∀ tid, tabLoading (handleChatPrompt st tabId p tt).1 tid = tabLoading st tid)
      ∧ (∀ tid, tabInputDisabled (handleChatPrompt st tabId p tt).1 tid = tabInputDisabled st tid))
  ∧ (c ≠ "/clear" →
        (handleChatPrompt st tabId p tt).2
            = [OutboundMessage.quickActionCommand c
                (if c = "/help" then some DEFAULT_HELP_PROMPT else p.escapedPrompt) tabId]) := by
  constructor
  · intro h
    subst h
    refine ⟨?_, ?_, ?_, ?_⟩
    · simp [handleChatPrompt, hc]
    · simp [handleChatPrompt, hc, chatItemsCount, mynahUpdateStoreExisting, findTab_updTab]
      cases findTab st.tabs tabId <;> simp [applyStoreUpdate]
    · intro tid
      by_cases h : tid = tabId
      · subst h
        simp [handleChatPrompt, hc, tabLoading, mynahUpdateStoreExisting, findTab_updTab]
        cases findTab st.tabs tid <;> simp [applyStoreUpdate]
      · simp [handleChatPrompt, hc, tabLoading, mynahUpdateStoreExisting, findTab_updTab, h]
    · intro tid
      by_cases h : tid = tabId
      · subst h
        simp [handleChatPrompt, hc, tabInputDisabled, mynahUpdateStoreExisting, findTab_updTab]
        cases findTab st.tabs tid <;> simp [applyStoreUpdate]
      · simp [handleChatPrompt, hc, tabInputDisabled, mynahUpdateStoreExisting, findTab_updTab, h]
  · intro h
    simp [handleChatPrompt, hc, h]

/-- **C2** (witness): the amended statement at the concrete `/clear` and
`/help` submissions on a one-tab state. -/
theorem claim2_witness :
    chatItemsCount (handleChatPrompt stOne "t0" clearPrompt none).1 "t0" = some 0
  ∧ (handleChatPrompt stOne "t0" helpPrompt none).2
      = [OutboundMessage.quickActionCommand "/help" (some DEFAULT_HELP_PROMPT) "t0"] := by
  constructor
  · have h := (claim2_theorem stOne "t0" clearPrompt none "/clear" rfl).1 rfl
    rw [h.2.1]
    decide
  · have h := (claim2_theorem stOne "t0" helpPrompt none "/help" rfl).2 (by decide)
    rw [h]
    decide

/-- **C5**: a non-partial result with an empty body whose first
follow-up option carries a recognized auth type is appended to the tab
as a distinct system-prompt item (the item count grows by one and the
last item is a system prompt), and finalize bookkeeping is skipped: no
end-of-stream signal is recorded and no tab's loading or input-disabled
flag changes. -/
theorem claim5_theorem (st : MynahUIState) (r : ChatResult) (tabId : String)
    (hb : r.body = some "") (ha : isAuthFollowUpResult r = true) :
    (addChatResponse st r tabId false).endMessageStreamCalls = st.endMessageStreamCalls
  ∧ (∀ tid, tabLoading (addChatResponse st r tabId false) tid = tabLoading st tid)
  ∧ (∀ tid, tabInputDisabled (addChatResponse st r tabId false) tid = tabInputDisabled st tid)
  ∧ chatItemsCount (addChatResponse st r tabId false) tabId
      = (chatItemsCount st tabId).map (· + 1)
  ∧ lastItemType (addChatResponse st r tabId false) tabId
      = (findTab st.tabs tabId).map (fun _ => some ChatItemType.systemPrompt) := by
  have hne : r.isEmptyObject = false := by
    simp [ChatResult.isEmptyObject, hb]
  have hred : addChatResponse st r tabId false = mynahAddChatItem st tabId
      { type := ChatItemType.systemPrompt, body := r.body, header := none,
        messageId := r.messageId, followUp := r.followUp,
        relatedContent := r.relatedContent, canBeVoted := r.canBeVoted } := by
    simp [addChatResponse, hne, hb, ha]
  rw [hred]
  refine ⟨rfl, fun tid => tabLoading_addChatItem .., fun tid => tabInputDisabled_addChatItem ..,
    ?_, ?_⟩
  · rw [chatItemsCount_addChatItem]
    simp
  · simp only [lastItemType, mynahAddChatItem, findTab_updTab, if_pos rfl]
    cases findTab st.tabs tabId <;> simp

/-- **C5** (witness): the auth-follow-up final result appends one system
prompt to the streaming tab, leaves it loading, and signals no
end-of-stream. -/
theorem claim5_witness :
    chatItemsCount (addChatResponse stOne authFollowUpResult "t0" false) "t0" = some 2
  ∧ tabLoading (addChatResponse stOne authFollowUpResult "t0" false) "t0" = some true
  ∧ (addChatResponse stOne authFollowUpResult "t0" false).endMessageStreamCalls = [] := by
  have h := claim5_theorem stOne authFollowUpResult "t0" rfl (by decide)
  refine ⟨?_, ?_, ?_⟩
  · rw [h.2.2.2.1]
    decide
  · rw [h.2.1 "t0"]
    decide
  · rw [h.1]
    decide

/-- **C1** (counterexample): a finalizing (non-partial) result does not
reset the flags regardless of content — the completely empty final
result leaves a loading tab's `loadingChat` and `promptInputDisabledState`
at `true` (the empty-object early return precedes the reset, as C6
records), so the claim's "regardless of result content" is false. -/
theorem claim1_counterexample :
    tabLoading (addChatResponse stOne emptyChatResult "t0" false) "t0" = some true
  ∧ tabInputDisabled (addChatResponse stOne emptyChatResult "t0" false) "t0" = some true := by
  constructor <;> decide

/-- **C1** (amended): a partial result only rewrites the content of the
tab's last chat item in place — it appends no item to any tab; a
finalizing (non-partial) result whose payload is non-empty and not an
auth follow-up likewise appends no item (the streaming item itself
becomes the terminal answer), records the end-of-stream signal for the
result's message id, and resets both `loadingChat` and `inputDisabled`
to `false` on the target tab. -/
theorem claim1_theorem (st : MynahUIState) (r : ChatResult) (tabId : String) :
    (∀ tid, chatItemsCount (addChatResponse st r tabId true) tid = chatItemsCount st tid)
  ∧ (r.isEmptyObject = false →
      ¬(r.body = some "" ∧ isAuthFollowUpResult r = true) →
        (∀ tid, chatItemsCount (addChatResponse st r tabId false) tid = chatItemsCount st tid)
      ∧ tabLoading (addChatResponse st r tabId false) tabId
          = (tabLoading st tabId).map (fun _ => false)
      ∧ tabInputDisabled (addChatResponse st r tabId false) tabId
          = (tabInputDisabled st tabId).map (fun _ => false)
      ∧ (addChatResponse st r tabId false).endMessageStreamCalls
          = st.endMessageStreamCalls ++ [(tabId, r.messageId.getD "")]) := by
  constructor
  · intro tid
    simp only [addChatResponse, if_pos rfl]
    exact chatItemsCount_updateLastChatAnswer ..
  · intro hne hna
    have hcond : ¬(r.body = some "" ∧ isAuthFollowUpResult r) := by
      intro h
      exact hna ⟨h.1, h.2⟩
    refine ⟨?_, ?_, ?_, ?_⟩
    · intro tid
      simp only [addChatResponse, Bool.false_eq_true, if_false, hne, hcond, if_neg,
        Bool.not_eq_true]
      rw [chatItemsCount_updateStoreExisting_noItems, chatItemsCount_endMessageStream,
        chatItemsCount_updateLastChatAnswer]
    · simp only [addChatResponse, Bool.false_eq_true, if_false, hne, hcond, if_neg,
        Bool.not_eq_true]
      rw [tabLoading_updateStoreExisting, if_pos rfl, tabLoading_endMessageStream,
        tabLoading_updateLastChatAnswer]
      cases tabLoading st tabId <;> simp
    · simp only [addChatResponse, Bool.false_eq_true, if_false, hne, hcond, if_neg,
        Bool.not_eq_true]
      rw [tabInputDisabled_updateStoreExisting, if_pos rfl, tabInputDisabled_endMessageStream,
        tabInputDisabled_updateLastChatAnswer]
      cases tabInputDisabled st tabId <;> simp
    · simp only [addChatResponse, Bool.false_eq_true, if_false, hne, hcond, if_neg,
        Bool.not_eq_true]
      simp [mynahUpdateStoreExisting, mynahEndMessageStream, mynahUpdateLastChatAnswer]

/-- **C1** (witness): the amended statement at a plain final result on a
loading one-tab state: the item count stays at one through both the
partial and the final path, the flag resets to `false`, and the
end-of-stream call for `"m1"` is recorded. -/
theorem claim1_witness :
    chatItemsCount (addChatResponse stOne plainFinalResult "t0" true) "t0" = some 1
  ∧ tabLoading (addChatResponse stOne plainFinalResult "t0" false) "t0" = some false
  ∧ (addChatResponse stOne plainFinalResult "t0" false).endMessageStreamCalls = [("t0", "m1")] := by
  have h := claim1_theorem stOne plainFinalResult "t0"
  have h2 := h.2 (by decide) (by decide)
  refine ⟨?_, ?_, ?_⟩
  · rw [h.1 "t0"]
    decide
  · rw [h2.2.1]
    decide
  · rw [h2.2.2.2]
    decide

/-- **C10**: `showError` clears the loading and input-disabled flags on
the currently selected tab, appends the error answer item to the tab
named by the parameters (those two can differ, in which case the named
tab's flags are untouched), and emits the error to the backend; when no
tab is selected one is created lazily, and when that creation fails (the
tab cap is reached) no item is appended, no flags change, and nothing is
emitted. -/
theorem claim10_theorem (st : MynahUIState) (params : ErrorParams) :
    (∀ s, st.selectedTabId = some s →
        tabLoading (showError st params).1 s = (tabLoading st s).map (fun _ => false)
      ∧ tabInputDisabled (showError st params).1 s = (tabInputDisabled st s).map (fun _ => false)
      ∧ chatItemsCount (showError st params).1 params.tabId
          = (chatItemsCount st params.tabId).map (· + 1)
      ∧ (∀ tid, tid ≠ params.tabId →
            chatItemsCount (showError st params).1 tid = chatItemsCount st tid)
      ∧ (params.tabId ≠ s →
            tabLoading (showError st params).1 params.tabId = tabLoading st params.tabId
          ∧ tabInputDisabled (showError st params).1 params.tabId
              = tabInputDisabled st params.tabId)
      ∧ (showError st params).2 = [OutboundMessage.error params])
  ∧ (st.selectedTabId = none → st.tabs.length = maxTabs →
        (showError st params).1.tabs = st.tabs ∧ (showError st params).2 = [])
  ∧ (st.selectedTabId = none → st.tabs.length < maxTabs →
        (showError st params).1.tabs.length = st.tabs.length + 1
      ∧ (showError st params).2 = [OutboundMessage.error params]) := by
  refine ⟨?_, ?_, ?_⟩
  · intro s hsel
    simp only [showError, getOrCreateTabId, hsel]
    refine ⟨?_, ?_, ?_, ?_, ?_, by trivial⟩
    · rw [tabLoading_addChatItem, tabLoading_updateStoreExisting, if_pos rfl]
      cases tabLoading st s <;> simp
    · rw [tabInputDisabled_addChatItem, tabInputDisabled_updateStoreExisting, if_pos rfl]
      cases tabInputDisabled st s <;> simp
    · rw [chatItemsCount_addChatItem, if_pos rfl, chatItemsCount_updateStoreExisting_noItems]
    · intro tid htid
      rw [chatItemsCount_addChatItem, if_neg htid, chatItemsCount_updateStoreExisting_noItems]
    · intro hdiff
      constructor
      · rw [tabLoading_addChatItem, tabLoading_updateStoreExisting, if_neg hdiff]
      · rw [tabInputDisabled_addChatItem, tabInputDisabled_updateStoreExisting, if_neg hdiff]
  · intro hsel hfull
    have hlt : ¬ st.tabs.length < maxTabs := by omega
    simp [showError, getOrCreateTabId, hsel, createTabId, mynahUpdateStoreNewTab, hlt, mynahNotify]
  · intro hsel hlt
    simp only [showError, getOrCreateTabId, hsel, createTabId, mynahUpdateStoreNewTab, if_pos hlt]
    constructor
    · simp [mynahAddChatItem, mynahUpdateStoreExisting, updTab_length]
    · trivial

/-- **C10** (witness): on a one-tab state with `t0` selected and the
error aimed at `t0`, the flags clear, the error item lands on `t0`, and
the error is forwarded. -/
theorem claim10_witness :
    tabLoading (showError stOne { title := "Oops", message := "It failed", tabId := "t0" }).1 "t0"
        = some false
  ∧ chatItemsCount (showError stOne { title := "Oops", message := "It failed", tabId := "t0" }).1 "t0"
        = some 2
  ∧ (showError stOne { title := "Oops", message := "It failed", tabId := "t0" }).2
        = [OutboundMessage.error { title := "Oops", message := "It failed", tabId := "t0" }] := by
  have h := (claim10_theorem stOne { title := "Oops", message := "It failed", tabId := "t0" }).1
    "t0" rfl
  refine ⟨?_, ?_, h.2.2.2.2.2⟩
  · rw [h.1]
    decide
  · rw [h.2.2.1]
    decide

end LangServers
